import Mathlib

/-!
# Verification model of the pbi-agent XMLA client layer

Shallow embedding of the three core components of the repository:

* the connection pool (`xmla-connection-pool.service.js`): keyed map of
  session descriptors with validity checks, LRU-style eviction and
  invalidation;
* the query executor (`xmla-query-executor.service.js`): retry loop with
  error classification, exponential backoff with jitter, statistics and
  row-count extraction;
* the metadata extractor (`metadata-extractor.service.js`, reachable through
  `xmla.controller.js`): four per-category discovery extractions with
  best-effort aggregation and (for two of the categories) a REST fallback.

JavaScript conventions used throughout the embedding:

* timestamps and millisecond durations are `Int` (JS `Date.getTime()` values);
* a JS value that may be `null`/`undefined` or absent is an `Option`;
* tabular row cells are modelled as strings; the JS truthiness of a string
  cell is "the string is nonempty", and `a || b` on string cells is
  `if a = "" then b else a`;
* a function that can throw returns an `Except`.
-/

namespace PbiAgent

/-- JS `a || b` for string-valued operands: `""` is the only falsy string
(an absent cell/field is also modelled as `""`). -/
def jsOr (a b : String) : String := if a = "" then b else a

/-- Does the character list start with the given needle? -/
def startsWithCL : List Char → List Char → Bool
  | _, [] => true
  | [], _ :: _ => false
  | h :: hs, n :: ns => h == n && startsWithCL hs ns

/-- Does the haystack contain the needle as a contiguous run
(JS `String.prototype.includes`)? -/
def containsCL : List Char → List Char → Bool
  | [], needle => needle.isEmpty
  | h :: hs, needle => startsWithCL (h :: hs) needle || containsCL hs needle

/-- JS `hay.includes(needle)`. -/
def strIncludes (hay needle : String) : Bool := containsCL hay.data needle.data

/-- JS `s.toLowerCase()` (over basic latin letters, which covers every
literal the executor compares against). -/
def lowerStr (s : String) : String := ⟨s.data.map Char.toLower⟩

/-! ## Connection pool (`xmla-connection-pool.service.js`)

The pool is a JS `Map` from connection-key strings to connection objects,
modelled as an association list in key-insertion order (JS `Map` iteration
order). `Map.set` on a present key updates in place (order preserved);
on an absent key it appends. -/

/-- Pool configuration (`this.config` in the constructor). -/
structure PoolConfig where
  maxPoolSize : Nat
  maxConnectionAge : Int
  tokenExpiryBuffer : Int
  deriving Repr, DecidableEq

/-- Defaults from the constructor: pool size 10 (env default), 30 min max age,
5 min expiry buffer. -/
def defaultPoolConfig : PoolConfig :=
  { maxPoolSize := 10, maxConnectionAge := 30 * 60 * 1000, tokenExpiryBuffer := 5 * 60 * 1000 }

/-- A pooled connection object (`createConnection`'s literal). The string
identity fields, the endpoint and the connection-string record are carried
by the key / not needed by any property, so only the lifecycle and token
fields are kept. -/
structure Connection where
  accessToken : String
  tokenExpiry : Int
  createdAt : Int
  lastUsed : Int
  usageCount : Nat
  isValid : Bool
  deriving Repr, DecidableEq

/-- `getConnectionKey(tenantId, workspaceId, userId)`. -/
def getConnectionKey (tenantId workspaceId userId : String) : String :=
  tenantId ++ ":" ++ workspaceId ++ ":" ++ userId

/-- `isConnectionValid(connection)`, evaluated at clock value `now`:
three early-return checks in source order (token-expiry buffer, age bound,
validity flag). -/
def isConnectionValid (cfg : PoolConfig) (c : Connection) (now : Int) : Bool :=
  if c.tokenExpiry - now < cfg.tokenExpiryBuffer then false
  else if now - c.createdAt > cfg.maxConnectionAge then false
  else if !c.isValid then false
  else true

/-- The pool map: association list keyed by connection-key strings. -/
abbrev Pool := List (String × Connection)

/-- JS `Map.prototype.get` (first entry with the key). -/
def mapGet (p : Pool) (k : String) : Option Connection :=
  (p.find? (·.1 == k)).map (·.2)

/-- JS `Map.prototype.has`. -/
def mapHas (p : Pool) (k : String) : Bool := p.any (·.1 == k)

/-- JS `Map.prototype.delete` (a `Map` holds the key at most once). -/
def mapDelete (p : Pool) (k : String) : Pool := p.eraseP (·.1 == k)

/-- JS `Map.prototype.set`: update in place when present, append when absent. -/
def mapSet (p : Pool) (k : String) (c : Connection) : Pool :=
  if mapHas p k then p.map (fun e => if e.1 == k then (k, c) else e)
  else p ++ [(k, c)]

/-- `findOldestConnection`: fold over the entries in map order, starting from
`oldestKey = null`, `oldestTime = Date.now()`, taking an entry only when its
`lastUsed` is strictly below the best so far. -/
def findOldestAux : Pool → Option String → Int → Option String
  | [], best, _ => best
  | (k, c) :: rest, best, oldestTime =>
    if c.lastUsed < oldestTime then findOldestAux rest (some k) c.lastUsed
    else findOldestAux rest best oldestTime

/-- `findOldestConnection()` evaluated at clock value `now` (`Date.now()`). -/
def findOldestConnection (p : Pool) (now : Int) : Option String :=
  findOldestAux p none now

/-- The token provider's answer (`OAuthTokenModel.getValidToken`), an external
collaborator: either absent or a record with an access token and an expiry
timestamp (`expires_at`). -/
structure TokenData where
  accessToken : String
  expiresAt : Int
  deriving Repr, DecidableEq

/-- `createConnection`: absent token data is fatal (`throw`), otherwise a fresh
connection object with `createdAt = lastUsed = now`, `usageCount = 0`,
`isValid = true` and the provider's expiry. -/
def createConnection (tokenData : Option TokenData) (now : Int) :
    Except String Connection :=
  match tokenData with
  | none => .error "No valid Power BI token found. Please reconnect your Power BI account."
  | some td =>
    .ok { accessToken := td.accessToken, tokenExpiry := td.expiresAt,
          createdAt := now, lastUsed := now, usageCount := 0, isValid := true }

/-- The insertion step of `getConnection` after a fresh connection was created:
add directly while below capacity; otherwise delete the oldest entry when one
is found (the `if (oldestKey)` guard) and set unconditionally. -/
def insertConnection (cfg : PoolConfig) (p : Pool) (key : String) (c : Connection)
    (now : Int) : Pool :=
  if p.length < cfg.maxPoolSize then mapSet p key c
  else
    match findOldestConnection p now with
    | some oldestKey => mapSet (mapDelete p oldestKey) key c
    | none => mapSet p key c

/-- Create a fresh connection and insert it (`getConnection`'s miss path).
On a creation failure the error propagates and the pool is left as given. -/
def createAndInsert (cfg : PoolConfig) (p : Pool) (key : String)
    (tokenData : Option TokenData) (now : Int) : Pool × Except String Connection :=
  match createConnection tokenData now with
  | .error e => (p, .error e)
  | .ok c => (insertConnection cfg p key c now, .ok c)

/-- `getConnection`: reuse a present-and-valid entry (mutating its `lastUsed`
and `usageCount` in place), delete a present-but-invalid entry before
recreating, or create and insert on a miss. Statistics counters are omitted
(no property refers to the pool's counters). -/
def getConnection (cfg : PoolConfig) (p : Pool) (key : String)
    (tokenData : Option TokenData) (now : Int) : Pool × Except String Connection :=
  match mapGet p key with
  | some c =>
    if isConnectionValid cfg c now then
      let c' := { c with lastUsed := now, usageCount := c.usageCount + 1 }
      (mapSet p key c', .ok c')
    else
      createAndInsert cfg (mapDelete p key) key tokenData now
  | none => createAndInsert cfg p key tokenData now

/-- `invalidateConnection(userId, tenantId, workspaceId)`: flip the validity
flag in place when the key is present; no-op otherwise. -/
def invalidateConnection (p : Pool) (key : String) : Pool :=
  match mapGet p key with
  | some c => mapSet p key { c with isValid := false }
  | none => p

/-! ## Query executor (`xmla-query-executor.service.js`) -/

/-- A JS error object as the executor inspects it: whether `error.response`
is present, the effective status `error.response?.status || error.status`
(`none` when that chain is `undefined`), and `error.message` (`""` for an
absent message, which behaves identically through `?.toLowerCase() || ''`). -/
structure JsError where
  hasResponse : Bool
  status : Option Int
  message : String
  deriving Repr, DecidableEq

/-- `isRetryableError`: no structured response, 5xx, 429, 408, 503, or a
message containing one of the transient substrings (case-insensitive);
everything else is not retryable. -/
def isRetryableError (e : JsError) : Bool :=
  if !e.hasResponse then true
  else
    let statusRetry :=
      match e.status with
      | some s => decide (s ≥ 500) || s == 429 || s == 408 || s == 503
      | none => false
    if statusRetry then true
    else
      let msg := lowerStr e.message
      strIncludes msg "timeout" || strIncludes msg "temporarily unavailable" ||
        strIncludes msg "capacity limit"

/-- `shouldInvalidateConnection`: status 401/403, or a message mentioning
token/authentication/authorization (case-insensitive). -/
def shouldInvalidateConnection (e : JsError) : Bool :=
  let statusAuth :=
    match e.status with
    | some s => s == 401 || s == 403
    | none => false
  if statusAuth then true
  else
    let msg := lowerStr e.message
    strIncludes msg "token" || strIncludes msg "authentication" ||
      strIncludes msg "authorization"

/-- What a failed `executeWithRetry` call throws: the last JS error of the
loop, the JS value `undefined` (the `throw lastError` when the loop body never
ran, possible only with `maxRetries = 0`), or the `ReferenceError` raised by
evaluating the free identifier `tenantId` at the `invalidateConnection` call
site (line 144): `executeWithRetry(userId, workspaceId, datasetId, daxQuery,
connection)` has no `tenantId` in scope and the module defines none, so the
argument evaluation throws before `invalidateConnection` is entered. -/
inductive Thrown where
  | js (e : JsError)
  | jsUndefined
  | refErrorTenantId
  deriving Repr, DecidableEq

/-- The identifiers in scope inside `executeWithRetry` (its parameters and
`let` locals). `tenantId` is not among them. -/
def executeWithRetryScope : List String :=
  ["userId", "workspaceId", "datasetId", "daxQuery", "connection", "lastError", "attempt"]

/-- Whether the identifier `tenantId` resolves inside `executeWithRetry`. -/
def tenantIdInScope : Bool := executeWithRetryScope.contains "tenantId"

/-- Outcome of one run of the `executeWithRetry` loop: how many remote
attempts were performed, how many `connectionPool.invalidateConnection` calls
actually executed, and the returned value or thrown error. -/
structure RunOutcome (α : Type) where
  attempts : Nat
  invalidateCalls : Nat
  result : Except Thrown α
  deriving Repr

/-- The `while (attempt < maxRetries)` loop of `executeWithRetry`.
`script i` is the outcome of remote attempt number `i` (1-based):
`executeSingleQuery`'s resolution or the error it throws. Source order inside
the `catch`: record `lastError`; non-retryable → `break`; attempt budget
exhausted → `break`; backoff sleep; `shouldInvalidateConnection` →
`this.connectionPool.invalidateConnection(userId, tenantId, workspaceId)`,
whose evaluation of `tenantId` throws a `ReferenceError` out of the loop
(the `tenantIdInScope` branch keeps the code's intended continuation for
the record, but it is unreachable).
The recursion is driven structurally by `fuel`, kept equal to
`maxRetries - attempt` by both callers, so that matching `fuel` against `0`
is exactly the loop condition `attempt < maxRetries`. -/
def execRetryGo (maxRetries : Nat) (script : Nat → Except JsError α) :
    Nat → Nat → RunOutcome α
  | 0, attempt => ⟨attempt, 0, .error .jsUndefined⟩
  | fuel + 1, attempt =>
    let attempt' := attempt + 1
    match script attempt' with
    | .ok r => ⟨attempt', 0, .ok r⟩
    | .error e =>
      if !(isRetryableError e) then ⟨attempt', 0, .error (.js e)⟩
      else if maxRetries ≤ attempt' then ⟨attempt', 0, .error (.js e)⟩
      else if shouldInvalidateConnection e then
        if tenantIdInScope then
          let rest := execRetryGo maxRetries script fuel attempt'
          ⟨rest.attempts, rest.invalidateCalls + 1, rest.result⟩
        else ⟨attempt', 0, .error .refErrorTenantId⟩
      else execRetryGo maxRetries script fuel attempt'

/-- `executeWithRetry`, started at `attempt = 0` (so with full fuel). -/
def executeWithRetry (maxRetries : Nat) (script : Nat → Except JsError α) :
    RunOutcome α :=
  execRetryGo maxRetries script maxRetries 0

/-- The message carried by a thrown value, as `executeDAXQuery`'s `catch`
reads `error.message`. -/
def thrownMessage : Thrown → String
  | .js e => e.message
  | .jsUndefined => "undefined"
  | .refErrorTenantId => "tenantId is not defined"

/-- The `success`/`error` part of `executeDAXQuery`'s return value. -/
structure QueryResponse where
  success : Bool
  error : Option String
  deriving Repr, DecidableEq

/-- `executeDAXQuery`'s wrapping of the retry loop's outcome: a resolved run
yields `success: true`; a thrown error is caught and yields `success: false`
with the error's message. -/
def daxQueryResult (run : RunOutcome α) : QueryResponse :=
  match run.result with
  | .ok _ => ⟨true, none⟩
  | .error t => ⟨false, some (thrownMessage t)⟩

/-- The executor statistics object (`this.stats`). -/
structure ExecStats where
  totalQueries : Nat
  successfulQueries : Nat
  failedQueries : Nat
  retriedQueries : Nat
  totalExecutionTime : Int
  deriving Repr, DecidableEq

/-- `resetStats()` (also the constructor's initial value). -/
def resetStats : ExecStats :=
  { totalQueries := 0, successfulQueries := 0, failedQueries := 0,
    retriedQueries := 0, totalExecutionTime := 0 }

/-- The statistics mutations of one `executeDAXQuery` call:
`totalQueries++` on entry, then on the success path `successfulQueries++`
and `totalExecutionTime += executionTime`, on the catch path
`failedQueries++`. (`retriedQueries` is touched only inside the retry loop
on a successful attempt with `attempt > 1`, which does not affect the
counters below.) -/
def recordQuery (s : ExecStats) (succeeded : Bool) (executionTime : Int) : ExecStats :=
  if succeeded then
    { s with totalQueries := s.totalQueries + 1,
             successfulQueries := s.successfulQueries + 1,
             totalExecutionTime := s.totalExecutionTime + executionTime }
  else
    { s with totalQueries := s.totalQueries + 1,
             failedQueries := s.failedQueries + 1 }

/-- The capped exponential delay `min(baseDelay * 2^(attempt-1), maxDelay)`.
`attempt` is 1-based; the delays are integer milliseconds. -/
def delayOf (base maxDelay : ℤ) (attempt : ℕ) : ℤ :=
  min (base * 2 ^ (attempt - 1)) maxDelay

/-- `calculateBackoffDelay(attempt)` with the jitter draw `rand` standing for
`Math.random()` (a value in `[0, 1)`): `Math.floor(delay + delay * 0.2 * rand)`,
computed over the rationals (0.2 = 1/5). -/
def calculateBackoffDelay (base maxDelay : ℤ) (attempt : ℕ) (rand : ℚ) : ℤ :=
  let delay : ℚ := (delayOf base maxDelay attempt : ℚ)
  (delay + delay * (1 / 5) * rand).floor

/-! ## Query results and row-count extraction -/

/-- A result row: a JS object in key-insertion order with string-valued cells
(`Object.keys` order is the list order). -/
abbrev Row := List (String × String)

/-- `row[k]`, with `""` for an absent key (both `undefined` and `""` are
falsy, so every `row[k] || fallback` use is preserved). -/
def rowGet (r : Row) (k : String) : String :=
  ((r.find? (·.1 == k)).map (·.2)).getD ""

/-- `row[Object.keys(row)[i]]`, the positional fallback access. -/
def rowPos (r : Row) (i : Nat) : String :=
  match (r.map (·.1))[i]? with
  | some k => rowGet r k
  | none => ""

/-- One entry of a result's `tables` array; `rows` may be absent. -/
structure QueryTable where
  rows : Option (List Row)
  deriving Repr

/-- One entry of the remote result's `results` array; `tables` may be absent. -/
structure QueryResultEntry where
  tables : Option (List QueryTable)
  deriving Repr

/-- The remote service's raw tabular result shape. -/
structure DaxApiResult where
  results : Option (List QueryResultEntry)
  deriving Repr

/-- The navigation path `result?.results?.[0]?.tables?.[0]?.rows`. -/
def navRows (result : Option DaxApiResult) : Option (List Row) := do
  let d ← result
  let rs ← d.results
  let entry ← rs.head?
  let ts ← entry.tables
  let t ← ts.head?
  t.rows

/-- `extractRowCount(result)`: the code's nested guards
(`result && result.results && result.results.length > 0`, then
`firstResult.tables && firstResult.tables.length > 0`, then
`rows ? rows.length : 0`), returning 0 whenever the path is missing.
The `try/catch` wrapper is vacuous here: no branch can throw. -/
def extractRowCount (result : Option DaxApiResult) : Nat :=
  match result with
  | none => 0
  | some res =>
    match res.results with
    | none => 0
    | some [] => 0
    | some (firstResult :: _) =>
      match firstResult.tables with
      | none => 0
      | some [] => 0
      | some (t :: _) =>
        match t.rows with
        | some rows => rows.length
        | none => 0

/-! ## Metadata extractor (`metadata-extractor.service.js`) -/

/-- The part of `executeDAXQuery`'s return value the extractors inspect:
the `success` flag and the raw `results` payload. -/
structure ExecOutcome where
  success : Bool
  results : Option DaxApiResult

/-- The guard `result.success && result.results?.results?.[0]?.tables?.[0]?.rows`
shared by all four category extractors: the rows of the primary discovery
query when it succeeded with the expected shape, `none` otherwise.
(A present-but-empty `rows` array is truthy in JS and is therefore `some []`
here: the extractor maps it to an empty collection without falling back.) -/
def primaryRows (o : ExecOutcome) : Option (List Row) :=
  if o.success then navRows o.results else none

/-- A column object produced by the REST table path. -/
structure RestColumn where
  name : String
  dataType : String
  isHidden : Bool
  deriving Repr, DecidableEq

/-- A table record as the extractor builds it. The `columns` list exists only
on the REST path; the DAX path's objects carry no such key (modelled `[]`). -/
structure TableMeta where
  name : String
  type : String
  description : String
  columnCount : Nat
  columns : List RestColumn
  deriving Repr, DecidableEq

/-- The DAX row → table record mapping of `extractTables`. -/
def tableOfRow (row : Row) : TableMeta :=
  { name := jsOr (rowGet row "TableName") (rowPos row 0),
    type := jsOr (rowGet row "TableType") "TABLE",
    description := rowGet row "Description",
    columnCount := 0,
    columns := [] }

/-- A REST discovery channel: the request may throw, resolve without a
truthy `value`, or resolve with a list of entries. -/
abbrev RestChannel (β : Type) := Except String (Option (List β))

/-- One entry of the REST `/tables` response. -/
structure RestTableEntry where
  name : String
  description : String
  columns : Option (List RestColumn)
  deriving Repr, DecidableEq

/-- `extractTablesViaREST`: map `response.value` when present, `[]` when the
value is missing or the request threw. -/
def extractTablesViaREST (ch : RestChannel RestTableEntry) : List TableMeta :=
  match ch with
  | .error _ => []
  | .ok none => []
  | .ok (some ts) =>
    ts.map fun t =>
      { name := t.name, type := "TABLE", description := t.description,
        columnCount := (t.columns.getD []).length,
        columns := t.columns.getD [] }

/-- `extractTables`: map the primary DAX rows when the guard holds, otherwise
fall back to the REST channel. (The outer `catch => []` is unreachable:
`executeDAXQuery` never throws and the mapping is total.) -/
def extractTables (primary : ExecOutcome) (rest : RestChannel RestTableEntry) :
    List TableMeta :=
  match primaryRows primary with
  | some rows => rows.map tableOfRow
  | none => extractTablesViaREST rest

/-- A measure record as the extractor builds it. -/
structure MeasureMeta where
  name : String
  tableName : String
  expression : String
  description : String
  dataType : String
  deriving Repr, DecidableEq

/-- The DAX row → measure record mapping of `extractMeasures`. -/
def measureOfRow (row : Row) : MeasureMeta :=
  { name := jsOr (rowGet row "MeasureName") (rowPos row 0),
    tableName := rowGet row "TableName",
    expression := rowGet row "Expression",
    description := rowGet row "Description",
    dataType := jsOr (rowGet row "DataType") "Variant" }

/-- One entry of the REST `/measures` response. -/
structure RestMeasureEntry where
  name : String
  tableName : String
  expression : String
  description : String
  deriving Repr, DecidableEq

/-- `extractMeasuresViaREST`. -/
def extractMeasuresViaREST (ch : RestChannel RestMeasureEntry) : List MeasureMeta :=
  match ch with
  | .error _ => []
  | .ok none => []
  | .ok (some ms) =>
    ms.map fun m =>
      { name := m.name, tableName := m.tableName, expression := m.expression,
        description := m.description, dataType := "Variant" }

/-- `extractMeasures`: primary DAX rows, REST fallback otherwise. -/
def extractMeasures (primary : ExecOutcome) (rest : RestChannel RestMeasureEntry) :
    List MeasureMeta :=
  match primaryRows primary with
  | some rows => rows.map measureOfRow
  | none => extractMeasuresViaREST rest

/-- A column record as the extractor builds it. `isHidden` is the truthiness
of the `IsHidden` cell (`row['IsHidden'] || false`). -/
structure ColumnMeta where
  tableName : String
  name : String
  dataType : String
  description : String
  isHidden : Bool
  deriving Repr, DecidableEq

/-- The DAX row → column record mapping of `extractColumns`. -/
def columnOfRow (row : Row) : ColumnMeta :=
  { tableName := jsOr (rowGet row "TableName") (rowPos row 0),
    name := jsOr (rowGet row "ColumnName") (rowPos row 1),
    dataType := jsOr (rowGet row "DataType") "Unknown",
    description := rowGet row "Description",
    isHidden := rowGet row "IsHidden" != "" }

/-- `extractColumns`: primary DAX rows when the guard holds, otherwise an
empty list — this extractor has no secondary channel in the source. -/
def extractColumns (primary : ExecOutcome) : List ColumnMeta :=
  match primaryRows primary with
  | some rows => rows.map columnOfRow
  | none => []

/-- A relationship record as the extractor builds it. `isActive` is
`row['IsActive'] !== false`, which is `true` for every string-valued cell. -/
structure RelationshipMeta where
  name : String
  fromTable : String
  fromColumn : String
  toTable : String
  toColumn : String
  crossFilterDirection : String
  isActive : Bool
  deriving Repr, DecidableEq

/-- The DAX row → relationship record mapping of `extractRelationships`. -/
def relationshipOfRow (row : Row) : RelationshipMeta :=
  { name := rowGet row "RelationshipName",
    fromTable := jsOr (rowGet row "FromTable") (rowPos row 1),
    fromColumn := jsOr (rowGet row "FromColumn") (rowPos row 2),
    toTable := jsOr (rowGet row "ToTable") (rowPos row 3),
    toColumn := jsOr (rowGet row "ToColumn") (rowPos row 4),
    crossFilterDirection := jsOr (rowGet row "CrossFilterDirection") "Single",
    isActive := true }

/-- `extractRelationships`: primary DAX rows when the guard holds, otherwise
an empty list — this extractor has no secondary channel in the source. -/
def extractRelationships (primary : ExecOutcome) : List RelationshipMeta :=
  match primaryRows primary with
  | some rows => rows.map relationshipOfRow
  | none => []

/-! ## Metadata aggregation (`extractCompleteMetadata`) -/

/-- The per-category success flags of the snapshot. -/
structure ExtractionMethods where
  tables : Bool
  measures : Bool
  relationships : Bool
  columns : Bool
  deriving Repr, DecidableEq

/-- The aggregated snapshot (identity, timestamp and duration fields omitted:
no property refers to them). -/
structure SchemaSnapshot where
  tables : List TableMeta
  measures : List MeasureMeta
  relationships : List RelationshipMeta
  columns : List ColumnMeta
  extractionMethods : ExtractionMethods

/-- A settled promise of one category extraction as `Promise.allSettled`
reports it: fulfilled with a collection, or rejected with a reason. -/
abbrev Settled (α : Type) := Except String α

/-- `x.status === 'fulfilled' ? x.value : []`. -/
def settledValue (e : Settled (List α)) : List α :=
  match e with
  | .ok v => v
  | .error _ => []

/-- `x.status === 'fulfilled'`. -/
def settledOk (e : Settled (List α)) : Bool :=
  match e with
  | .ok _ => true
  | .error _ => false

/-- The aggregation step of `extractCompleteMetadata` over the four settled
category extractions (in the source's `Promise.allSettled` order: tables,
measures, relationships, columns). The surrounding dataset lookup and the
final `storeMetadata` call can abort the call, but no category outcome can:
this function is total in the four outcomes. -/
def extractCompleteMetadata (tablesR : Settled (List TableMeta))
    (measuresR : Settled (List MeasureMeta))
    (relationshipsR : Settled (List RelationshipMeta))
    (columnsR : Settled (List ColumnMeta)) : SchemaSnapshot :=
  { tables := settledValue tablesR,
    measures := settledValue measuresR,
    relationships := settledValue relationshipsR,
    columns := settledValue columnsR,
    extractionMethods :=
      { tables := settledOk tablesR,
        measures := settledOk measuresR,
        relationships := settledOk relationshipsR,
        columns := settledOk columnsR } }

/-! ## Helper lemmas -/

/-- Bridge between Batteries' executable `Rat.floor` (used by
`calculateBackoffDelay`) and Mathlib's `Int.floor`. -/
lemma ratFloor_eq_intFloor (q : ℚ) : q.floor = ⌊q⌋ := by
  rw [Rat.floor_def', Rat.floor_def]

lemma mapSet_length_le (p : Pool) (k : String) (c : Connection) :
    (mapSet p k c).length ≤ p.length + 1 := by
  unfold mapSet
  split
  · simp
  · simp

lemma mapSet_length_of_has (p : Pool) (k : String) (c : Connection)
    (h : mapHas p k = true) : (mapSet p k c).length = p.length := by
  simp [mapSet, h]

lemma mapGet_some_has (p : Pool) (k : String) (c : Connection)
    (h : mapGet p k = some c) : mapHas p k = true := by
  unfold mapGet at h
  rw [Option.map_eq_some'] at h
  obtain ⟨e, he, -⟩ := h
  have hpe : (e.1 == k) = true :=
    @List.find?_some _ (fun x => x.1 == k) e p he
  exact List.any_eq_true.2 ⟨e, List.mem_of_find?_eq_some he, hpe⟩

lemma mapDelete_length_of_has (p : Pool) (k : String)
    (h : mapHas p k = true) : (mapDelete p k).length + 1 = p.length := by
  obtain ⟨e, he, hk⟩ := List.any_eq_true.1 h
  exact List.length_eraseP_add_one he hk

lemma mapDelete_length_le (p : Pool) (k : String) :
    (mapDelete p k).length ≤ p.length :=
  List.length_eraseP_le p

lemma findOldestAux_isSome :
    ∀ (l : Pool) (best : Option String) (t : Int),
      ((∃ e ∈ l, e.2.lastUsed < t) ∨ best.isSome) →
      (findOldestAux l best t).isSome := by
  intro l
  induction l with
  | nil =>
    intro best t h
    rcases h with ⟨e, he, -⟩ | hb
    · cases he
    · simpa [findOldestAux] using hb
  | cons hd tl ih =>
    intro best t h
    obtain ⟨k, c⟩ := hd
    rw [findOldestAux]
    split
    · exact ih _ _ (Or.inr rfl)
    · rename_i hnot
      apply ih
      rcases h with ⟨e, he, hlt⟩ | hb
      · rcases List.mem_cons.1 he with rfl | htl
        · exact absurd hlt hnot
        · exact Or.inl ⟨e, htl, hlt⟩
      · exact Or.inr hb


lemma findOldestAux_mem :
    ∀ (l : Pool) (best : Option String) (t : Int) (k : String),
      findOldestAux l best t = some k →
      (∃ e ∈ l, e.1 = k) ∨ best = some k := by
  intro l
  induction l with
  | nil =>
    intro best t k h
    exact Or.inr h
  | cons hd tl ih =>
    intro best t k h
    obtain ⟨k0, c0⟩ := hd
    rw [findOldestAux] at h
    split at h
    · rcases ih _ _ _ h with ⟨e, he, hk⟩ | hb
      · exact Or.inl ⟨e, List.mem_cons_of_mem _ he, hk⟩
      · exact Or.inl ⟨(k0, c0), List.mem_cons_self _ _, Option.some.inj hb⟩
    · rcases ih _ _ _ h with ⟨e, he, hk⟩ | hb
      · exact Or.inl ⟨e, List.mem_cons_of_mem _ he, hk⟩
      · exact Or.inr hb

lemma findOldest_has (p : Pool) (now : Int) (k : String)
    (h : findOldestConnection p now = some k) : mapHas p k = true := by
  rcases findOldestAux_mem p none now k h with ⟨e, he, hk⟩ | hb
  · exact List.any_eq_true.2 ⟨e, he, by simp [hk]⟩
  · cases hb

lemma insertConnection_length (cfg : PoolConfig) (p : Pool) (key : String)
    (c : Connection) (now : Int)
    (h : p.length < cfg.maxPoolSize ∨
      ((∃ e ∈ p, e.2.lastUsed < now) ∧ p.length ≤ cfg.maxPoolSize)) :
    (insertConnection cfg p key c now).length ≤ cfg.maxPoolSize := by
  unfold insertConnection
  split
  · rename_i hlt
    exact le_trans (mapSet_length_le _ _ _) hlt
  · rename_i hge
    rcases h with hlt | ⟨hex, hle⟩
    · exact absurd hlt hge
    · have hsome := findOldestAux_isSome p none now (Or.inl hex)
      obtain ⟨k, hk⟩ := Option.isSome_iff_exists.1 hsome
      rw [show findOldestConnection p now = some k from hk]
      have hdel := mapDelete_length_of_has p k (findOldest_has p now k hk)
      calc (mapSet (mapDelete p k) key c).length
          ≤ (mapDelete p k).length + 1 := mapSet_length_le _ _ _
        _ = p.length := hdel
        _ ≤ cfg.maxPoolSize := hle

lemma execRetryGo_invalidateCalls (maxRetries : Nat)
    (script : Nat → Except JsError α) :
    ∀ (fuel attempt : Nat),
      (execRetryGo maxRetries script fuel attempt).invalidateCalls = 0 := by
  intro fuel
  induction fuel with
  | zero => intro attempt; rfl
  | succ n ih =>
    intro attempt
    rw [execRetryGo]
    cases hs : script (attempt + 1) with
    | ok r => rfl
    | error e =>
      simp only []
      split_ifs with h1 h2 h3 h4
      · rfl
      · rfl
      · exact absurd h4 (by decide)
      · rfl
      · exact ih (attempt + 1)

/-! ## Claim theorems -/

/-- Claim C6, counterexample. The claim states strict bounds
(`now < tokenExpiry - buffer` and `now - createdAt < maxConnectionAge`).
At the token boundary `now = tokenExpiry - buffer` the code's check
`timeUntilExpiry < buffer` does not fire, so `isConnectionValid` returns
`true` while the claimed strict bound `now < tokenExpiry - buffer` is false:
connection with `tokenExpiry = 600000`, `createdAt = 0`, valid flag set,
evaluated at `now = 300000` under the default config (buffer 300000). -/
theorem c6_strict_bounds_counterexample :
    isConnectionValid defaultPoolConfig
      { accessToken := "tok", tokenExpiry := 600000, createdAt := 0,
        lastUsed := 0, usageCount := 0, isValid := true } 300000 = true ∧
    ¬((300000 : Int) < 600000 - defaultPoolConfig.tokenExpiryBuffer) := by
  constructor
  · decide
  · decide

/-- Claim C6, amended: `isConnectionValid` returns `true` iff
`now ≤ tokenExpiry - tokenExpiryBuffer` AND `now - createdAt ≤
maxConnectionAge` AND the validity flag is set — the time bounds are
non-strict (the code rejects on `timeUntilExpiry < buffer` and on
`connectionAge > maxConnectionAge`), not strict as claimed. -/
theorem c6_isConnectionValid_iff (cfg : PoolConfig) (c : Connection) (now : Int) :
    isConnectionValid cfg c now = true ↔
      now ≤ c.tokenExpiry - cfg.tokenExpiryBuffer ∧
      now - c.createdAt ≤ cfg.maxConnectionAge ∧
      c.isValid = true := by
  unfold isConnectionValid
  split_ifs with h1 h2 h3
  · simp only [false_iff]
    intro ⟨ha, _, _⟩
    omega
  · simp only [false_iff]
    intro ⟨_, hb, _⟩
    omega
  · simp only [false_iff]
    intro ⟨_, _, hc⟩
    rw [hc] at h3
    simp at h3
  · simp only [true_iff]
    refine ⟨by omega, by omega, ?_⟩
    simpa using h3

/-- Claim C9: after every completed `executeDAXQuery` the statistics satisfy
`totalQueries = successfulQueries + failedQueries`; each call increments
`totalQueries` by exactly one and exactly one of `successfulQueries` /
`failedQueries` by one, and `resetStats` restores all counters to zero. -/
theorem c9_stats_invariant :
    (∀ (s : ExecStats) (succeeded : Bool) (dt : Int),
        s.totalQueries = s.successfulQueries + s.failedQueries →
        (recordQuery s succeeded dt).totalQueries =
          (recordQuery s succeeded dt).successfulQueries +
            (recordQuery s succeeded dt).failedQueries) ∧
    (∀ (s : ExecStats) (succeeded : Bool) (dt : Int),
        (recordQuery s succeeded dt).totalQueries = s.totalQueries + 1) ∧
    (∀ (s : ExecStats) (dt : Int),
        (recordQuery s true dt).successfulQueries = s.successfulQueries + 1 ∧
        (recordQuery s true dt).failedQueries = s.failedQueries) ∧
    (∀ (s : ExecStats) (dt : Int),
        (recordQuery s false dt).failedQueries = s.failedQueries + 1 ∧
        (recordQuery s false dt).successfulQueries = s.successfulQueries) ∧
    (resetStats.totalQueries = 0 ∧ resetStats.successfulQueries = 0 ∧
      resetStats.failedQueries = 0 ∧ resetStats.retriedQueries = 0 ∧
      resetStats.totalExecutionTime = 0) := by
  refine ⟨?_, ?_, ?_, ?_, ?_⟩
  · intro s succeeded dt h
    cases succeeded <;> simp [recordQuery] <;> omega
  · intro s succeeded dt
    cases succeeded <;> simp [recordQuery]
  · intro s dt
    simp [recordQuery]
  · intro s dt
    simp [recordQuery]
  · simp [resetStats]

/-- Claim C9, witness: the invariant-preservation part applied at the reset
state with a successful call of duration 5. -/
theorem c9_stats_invariant_witness :
    (recordQuery resetStats true 5).totalQueries =
      (recordQuery resetStats true 5).successfulQueries +
        (recordQuery resetStats true 5).failedQueries :=
  c9_stats_invariant.1 resetStats true 5 rfl

/-- Claim C10: `extractRowCount` is total over every input shape — absent
result, absent `results` field, empty `results` or `tables` arrays, a table
without `rows` — returning `rows.length` when the nested
`results[0].tables[0].rows` path exists and `0` in every other case
(the result type `Nat` makes non-negativity intrinsic). -/
theorem c10_extractRowCount_total (result : Option DaxApiResult) :
    (∀ rows, navRows result = some rows → extractRowCount result = rows.length) ∧
    (navRows result = none → extractRowCount result = 0) := by
  constructor
  · intro rows h
    match result with
    | none => simp [navRows] at h
    | some res =>
      match hres : res.results with
      | none => simp [navRows, hres] at h
      | some [] => simp [navRows, hres] at h
      | some (fst :: rest) =>
        match htab : fst.tables with
        | none => simp [navRows, hres, htab] at h
        | some [] => simp [navRows, hres, htab] at h
        | some (t :: ts) =>
          match hrows : t.rows with
          | none => simp [navRows, hres, htab, hrows] at h
          | some rs =>
            have hrs : rs = rows := by
              simpa [navRows, hres, htab, hrows] using h
            subst hrs
            simp [extractRowCount, hres, htab, hrows]
  · intro h
    match result with
    | none => simp [extractRowCount]
    | some res =>
      match hres : res.results with
      | none => simp [extractRowCount, hres]
      | some [] => simp [extractRowCount, hres]
      | some (fst :: rest) =>
        match htab : fst.tables with
        | none => simp [extractRowCount, hres, htab]
        | some [] => simp [extractRowCount, hres, htab]
        | some (t :: ts) =>
          match hrows : t.rows with
          | none => simp [extractRowCount, hres, htab, hrows]
          | some rs =>
            exfalso
            simp [navRows, hres, htab, hrows] at h

/-- Claim C10, witness: a one-row result evaluates to row count 1 through the
theorem. -/
theorem c10_extractRowCount_total_witness :
    extractRowCount
      (some { results := some [{ tables := some [{ rows := some [[("A", "1")]] }] }] }) = 1 :=
  (c10_extractRowCount_total
    (some { results := some [{ tables := some [{ rows := some [[("A", "1")]] }] }] })).1
    [[("A", "1")]] rfl

/-- Claim C2: when exactly one of the four category extractions settles
fulfilled and the other three settle rejected, `extractCompleteMetadata`
still returns a snapshot (the aggregation is total in the four outcomes —
no category failure aborts the call) whose collections are the fulfilled
values (empty for every rejected category) and whose `extractionMethods`
flags are `true` exactly for the fulfilled categories. -/
theorem c2_extractCompleteMetadata_partial_failure
    (tablesR : Settled (List TableMeta)) (measuresR : Settled (List MeasureMeta))
    (relationshipsR : Settled (List RelationshipMeta)) (columnsR : Settled (List ColumnMeta))
    (honeOk : ([settledOk tablesR, settledOk measuresR, settledOk relationshipsR,
        settledOk columnsR].count true) = 1) :
    (extractCompleteMetadata tablesR measuresR relationshipsR columnsR).tables
        = settledValue tablesR ∧
    (extractCompleteMetadata tablesR measuresR relationshipsR columnsR).measures
        = settledValue measuresR ∧
    (extractCompleteMetadata tablesR measuresR relationshipsR columnsR).relationships
        = settledValue relationshipsR ∧
    (extractCompleteMetadata tablesR measuresR relationshipsR columnsR).columns
        = settledValue columnsR ∧
    (extractCompleteMetadata tablesR measuresR relationshipsR columnsR).extractionMethods
        = ⟨settledOk tablesR, settledOk measuresR, settledOk relationshipsR,
           settledOk columnsR⟩ ∧
    (settledOk tablesR = false → settledValue tablesR = []) ∧
    (settledOk measuresR = false → settledValue measuresR = []) ∧
    (settledOk relationshipsR = false → settledValue relationshipsR = []) ∧
    (settledOk columnsR = false → settledValue columnsR = []) := by
  refine ⟨rfl, rfl, rfl, rfl, rfl, ?_, ?_, ?_, ?_⟩
  · cases tablesR <;> simp [settledOk, settledValue]
  · cases measuresR <;> simp [settledOk, settledValue]
  · cases relationshipsR <;> simp [settledOk, settledValue]
  · cases columnsR <;> simp [settledOk, settledValue]

/-- Claim C8: for attempt `n ≥ 1`, base delay `b ≥ 0`, max delay `m ≥ 0` and
jitter draw `r ∈ [0, 1)`, the computed backoff lies in
`[min(b·2^(n-1), m), 1.2·min(b·2^(n-1), m)]`, is capped above by `1.2·m`,
and the interval's endpoints (determined by `delayOf`) are non-decreasing
in the attempt number. -/
theorem c8_backoff_bounds (base maxDelay : ℤ) (attempt : ℕ) (rand : ℚ)
    (hb : 0 ≤ base) (hm : 0 ≤ maxDelay) (ha : 1 ≤ attempt)
    (hr0 : 0 ≤ rand) (hr1 : rand < 1) :
    delayOf base maxDelay attempt ≤ calculateBackoffDelay base maxDelay attempt rand ∧
    (calculateBackoffDelay base maxDelay attempt rand : ℚ)
      ≤ 6 / 5 * (delayOf base maxDelay attempt : ℚ) ∧
    (calculateBackoffDelay base maxDelay attempt rand : ℚ) ≤ 6 / 5 * (maxDelay : ℚ) ∧
    (∀ attempt', attempt ≤ attempt' →
      delayOf base maxDelay attempt ≤ delayOf base maxDelay attempt') := by
  have hD : (0 : ℤ) ≤ delayOf base maxDelay attempt :=
    le_min (mul_nonneg hb (pow_nonneg (by norm_num) _)) hm
  have hDq : (0 : ℚ) ≤ (delayOf base maxDelay attempt : ℚ) := by exact_mod_cast hD
  have hcalc : calculateBackoffDelay base maxDelay attempt rand
      = ⌊(delayOf base maxDelay attempt : ℚ)
          + (delayOf base maxDelay attempt : ℚ) * (1 / 5) * rand⌋ := by
    simp only [calculateBackoffDelay]
    exact ratFloor_eq_intFloor _
  have hjit0 : (0 : ℚ) ≤ (delayOf base maxDelay attempt : ℚ) * (1 / 5) * rand :=
    mul_nonneg (mul_nonneg hDq (by norm_num)) hr0
  have hjit1 : (delayOf base maxDelay attempt : ℚ) * (1 / 5) * rand
      ≤ (delayOf base maxDelay attempt : ℚ) * (1 / 5) :=
    mul_le_of_le_one_right (mul_nonneg hDq (by norm_num)) hr1.le
  have hfl := Int.floor_le ((delayOf base maxDelay attempt : ℚ)
    + (delayOf base maxDelay attempt : ℚ) * (1 / 5) * rand)
  refine ⟨?_, ?_, ?_, ?_⟩
  · rw [hcalc]
    exact Int.le_floor.2 (le_add_of_nonneg_right hjit0)
  · rw [hcalc]
    linarith
  · rw [hcalc]
    have hDle : delayOf base maxDelay attempt ≤ maxDelay := by
      unfold delayOf
      exact min_le_right _ _
    have hDm : (delayOf base maxDelay attempt : ℚ) ≤ (maxDelay : ℚ) := by
      exact_mod_cast hDle
    linarith
  · intro attempt' haa
    unfold delayOf
    exact min_le_min
      (mul_le_mul_of_nonneg_left
        (pow_le_pow_right₀ (by norm_num) (Nat.sub_le_sub_right haa 1)) hb)
      le_rfl

/-- Claim C8, witness: base 1000, max 10000, attempt 2, jitter draw 1/2
(the code's defaults), plus monotonicity towards attempt 3. -/
theorem c8_backoff_bounds_witness :
    delayOf 1000 10000 2 ≤ calculateBackoffDelay 1000 10000 2 (1 / 2) ∧
    (calculateBackoffDelay 1000 10000 2 (1 / 2) : ℚ) ≤ 6 / 5 * (delayOf 1000 10000 2 : ℚ) ∧
    delayOf 1000 10000 2 ≤ delayOf 1000 10000 3 := by
  have h := c8_backoff_bounds 1000 10000 2 (1 / 2) (by norm_num) (by norm_num)
    (by norm_num) (by norm_num) (by norm_num)
  exact ⟨h.1, h.2.1, h.2.2.2 3 (by norm_num)⟩

/-- The failing input for claim C1: a query attempt rejected with HTTP 401. -/
def c1AuthError : JsError :=
  { hasResponse := true, status := some 401, message := "Unauthorized" }

/-- Claim C1 (code bug): the claim says every 401/403/token-message failure
triggers an immediate `invalidateConnection` for the acquisition identity,
independent of the retry decision and also on the final failed attempt. The
code does neither: a 401 is classified non-retryable, so the loop breaks
before the invalidation check (1 attempt, no invalidation), and in the only
branch that does reach the check, the call's argument `tenantId` is not in
scope in `executeWithRetry`, so a `ReferenceError` is thrown before
`invalidateConnection` can run — across all runs the number of executed
invalidation calls is 0. -/
theorem c1_invalidate_never_called :
    shouldInvalidateConnection c1AuthError = true ∧
    isRetryableError c1AuthError = false ∧
    (executeWithRetry 3 (fun _ => (Except.error c1AuthError : Except JsError Unit))).attempts = 1 ∧
    (executeWithRetry 3 (fun _ => (Except.error c1AuthError : Except JsError Unit))).invalidateCalls = 0 ∧
    (executeWithRetry 3 (fun _ => (Except.error c1AuthError : Except JsError Unit))).result
      = Except.error (Thrown.js c1AuthError) ∧
    tenantIdInScope = false ∧
    (∀ (mr : Nat) (script : Nat → Except JsError Unit),
      (executeWithRetry mr script).invalidateCalls = 0) := by
  refine ⟨by decide, by decide, by decide, by decide, by rfl, by decide, ?_⟩
  intro mr script
  exact execRetryGo_invalidateCalls mr script mr 0

/-- The counterexample input for claim C5: a network-level failure whose
message mentions the token — retryable (no structured response) and
invalidation-triggering (message contains "token") at the same time. -/
def c5NetTokenError : JsError :=
  { hasResponse := false, status := none, message := "token expired" }

/-- Claim C5, counterexample: with `maxRetries = 3` and every attempt failing
with a retryable (Transient) error, the claim demands exactly 3 attempts and
the last error's message. When the transient error also satisfies the
invalidation predicate, the retry branch evaluates the out-of-scope
identifier `tenantId` and aborts after 1 attempt, returning the
`ReferenceError` message instead. -/
theorem c5_retry_exhaustion_counterexample :
    isRetryableError c5NetTokenError = true ∧
    shouldInvalidateConnection c5NetTokenError = true ∧
    (executeWithRetry 3 (fun _ => (Except.error c5NetTokenError : Except JsError Unit))).attempts = 1 ∧
    (executeWithRetry 3 (fun _ => (Except.error c5NetTokenError : Except JsError Unit))).attempts ≠ 3 ∧
    daxQueryResult (executeWithRetry 3 (fun _ => (Except.error c5NetTokenError : Except JsError Unit)))
      = { success := false, error := some "tenantId is not defined" } := by
  refine ⟨by rfl, by rfl, by rfl, by decide, by rfl⟩

/-- The retry loop retried to exhaustion on errors that never trigger the
invalidation predicate ends with exactly `maxRetries` attempts and the last
error. -/
lemma execRetryGo_exhaust (mr : Nat) (script : Nat → Except JsError α)
    (e : Nat → JsError)
    (h : ∀ i, 1 ≤ i → i ≤ mr → script i = Except.error (e i) ∧
      isRetryableError (e i) = true ∧ shouldInvalidateConnection (e i) = false) :
    ∀ (fuel attempt : Nat), fuel + attempt = mr → 1 ≤ fuel →
      execRetryGo mr script fuel attempt
        = ⟨mr, 0, Except.error (Thrown.js (e mr))⟩ := by
  intro fuel
  induction fuel with
  | zero =>
    intro attempt _ hpos
    exact absurd hpos (by decide)
  | succ n ih =>
    intro attempt hsum hpos
    obtain ⟨hs, hr, hi⟩ := h (attempt + 1) (by omega) (by omega)
    rw [execRetryGo, hs]
    simp only [hr, hi, Bool.not_true, Bool.false_eq_true, if_false]
    by_cases hend : mr ≤ attempt + 1
    · have hm : attempt + 1 = mr := by omega
      simp [hend, hm]
    · simp only [if_neg hend, if_pos, Bool.false_eq_true, if_false]
      exact ih (attempt + 1) (by omega) (by omega)

/-- Claim C5, amended: a Fatal (non-retryable) first failure ends the loop
after exactly 1 attempt with that error's message; retryable failures on
every attempt yield exactly `maxRetries` attempts and `success:false` with
the last error's message, provided no failing attempt also satisfies the
connection-invalidation predicate (if one does, the retry branch throws a
`ReferenceError` on the out-of-scope `tenantId` and the loop ends early —
see the counterexample). -/
theorem c5_retry_counts :
    (∀ (mr : Nat) (script : Nat → Except JsError Unit) (e : JsError),
        1 ≤ mr → script 1 = Except.error e → isRetryableError e = false →
        (executeWithRetry mr script).attempts = 1 ∧
        daxQueryResult (executeWithRetry mr script)
          = { success := false, error := some e.message }) ∧
    (∀ (mr : Nat) (script : Nat → Except JsError Unit) (e : Nat → JsError),
        1 ≤ mr →
        (∀ i, 1 ≤ i → i ≤ mr → script i = Except.error (e i) ∧
          isRetryableError (e i) = true ∧ shouldInvalidateConnection (e i) = false) →
        (executeWithRetry mr script).attempts = mr ∧
        daxQueryResult (executeWithRetry mr script)
          = { success := false, error := some (e mr).message }) := by
  constructor
  · intro mr script e hmr hs hf
    obtain ⟨m, rfl⟩ : ∃ m, mr = m + 1 := ⟨mr - 1, by omega⟩
    have hrun : execRetryGo (m + 1) script (m + 1) 0
        = ⟨1, 0, Except.error (Thrown.js e)⟩ := by
      rw [execRetryGo, hs]
      simp [hf]
    refine ⟨?_, ?_⟩
    · rw [executeWithRetry, hrun]
    · rw [executeWithRetry, hrun]
      rfl
  · intro mr script e hmr h
    have hrun := execRetryGo_exhaust mr script e h mr 0 (by omega) hmr
    refine ⟨?_, ?_⟩
    · rw [executeWithRetry, hrun]
    · rw [executeWithRetry, hrun]
      rfl

/-- A Fatal error for the C5 witness: HTTP 400, not retryable. -/
def c5FatalError : JsError :=
  { hasResponse := true, status := some 400, message := "Bad Request" }

/-- A Transient error for the C5 witness: HTTP 500, retryable, and not
invalidation-triggering. -/
def c5TransientError : JsError :=
  { hasResponse := true, status := some 500, message := "Internal Server Error" }

/-- Claim C5, witness: a 400 failure stops after 1 attempt; three 500
failures consume exactly `maxRetries = 3` attempts and return
`success:false` with the last error's message. -/
theorem c5_retry_counts_witness :
    (executeWithRetry 3 (fun _ => (Except.error c5FatalError : Except JsError Unit))).attempts = 1 ∧
    (executeWithRetry 3 (fun _ => (Except.error c5TransientError : Except JsError Unit))).attempts = 3 ∧
    daxQueryResult (executeWithRetry 3 (fun _ => (Except.error c5TransientError : Except JsError Unit)))
      = { success := false, error := some "Internal Server Error" } := by
  have ha := c5_retry_counts.1 3 (fun _ => Except.error c5FatalError) c5FatalError
    (by norm_num) rfl (by decide)
  have hb := c5_retry_counts.2 3 (fun _ => Except.error c5TransientError)
    (fun _ => c5TransientError) (by norm_num)
    (fun i _ _ => ⟨rfl, (by decide : isRetryableError c5TransientError = true),
      (by decide : shouldInvalidateConnection c5TransientError = false)⟩)
  exact ⟨ha.1, hb.1, hb.2⟩

/-- A sample table record for the C2 witness. -/
def c2SampleTable : TableMeta :=
  { name := "Sales", type := "TABLE", description := "", columnCount := 0, columns := [] }

/-- Claim C2, witness: only the tables extraction fulfilled (with one record);
the snapshot keeps that record, the other collections are empty and the flags
are `true` for tables only. -/
theorem c2_extractCompleteMetadata_partial_failure_witness :
    (extractCompleteMetadata (Except.ok [c2SampleTable]) (Except.error "m")
        (Except.error "r") (Except.error "c")).tables = [c2SampleTable] ∧
    (extractCompleteMetadata (Except.ok [c2SampleTable]) (Except.error "m")
        (Except.error "r") (Except.error "c")).measures = [] ∧
    (extractCompleteMetadata (Except.ok [c2SampleTable]) (Except.error "m")
        (Except.error "r") (Except.error "c")).relationships = [] ∧
    (extractCompleteMetadata (Except.ok [c2SampleTable]) (Except.error "m")
        (Except.error "r") (Except.error "c")).columns = [] ∧
    (extractCompleteMetadata (Except.ok [c2SampleTable]) (Except.error "m")
        (Except.error "r") (Except.error "c")).extractionMethods
      = ⟨true, false, false, false⟩ := by
  have h := c2_extractCompleteMetadata_partial_failure (Except.ok [c2SampleTable])
    (Except.error "m") (Except.error "r") (Except.error "c") (by rfl)
  exact ⟨h.1, h.2.1, h.2.2.1, h.2.2.2.1, h.2.2.2.2.1⟩

/-- Pool configuration with capacity 1 for the C3 counterexample
(`XMLA_CONNECTION_POOL_SIZE=1`; the other bounds are the code defaults). -/
def c3PoolConfig : PoolConfig :=
  { maxPoolSize := 1, maxConnectionAge := 30 * 60 * 1000, tokenExpiryBuffer := 5 * 60 * 1000 }

/-- A pooled connection last used at the very clock instant of the next call. -/
def c3BusyConn : Connection :=
  { accessToken := "tokA", tokenExpiry := 1000000000, createdAt := 100,
    lastUsed := 100, usageCount := 0, isValid := true }

/-- Claim C3, counterexample: `maxPoolSize = 1`, the pool holds one entry
whose `lastUsed` equals the current clock value, and `getConnection` for a
second identity arrives at that same instant. `findOldestConnection` starts
its scan at `oldestTime = Date.now()` with a strict `<`, finds no entry
strictly older, returns `null`, so nothing is evicted and the insertion
leaves the map with 2 entries — more than `maxPoolSize`. -/
theorem c3_capacity_counterexample :
    c3PoolConfig.maxPoolSize = 1 ∧
    ((getConnection c3PoolConfig [("t:w:A", c3BusyConn)] "t:w:B"
        (some ⟨"tokB", 1000000000⟩) 100).1).length = 2 := by
  refine ⟨rfl, by decide⟩

/-- Claim C3, amended: a `getConnection` step preserves
`pool.size ≤ maxPoolSize` provided that, whenever the pool is at (or above)
capacity when the call arrives, some entry's `lastUsed` is strictly earlier
than the call's clock value — the condition under which the eviction scan
can find a victim. Without it (every entry last used at or after the current
instant) the bound can be exceeded, as the counterexample shows. -/
theorem c3_pool_bounded (cfg : PoolConfig) (p : Pool) (key : String)
    (td : Option TokenData) (now : Int)
    (hle : p.length ≤ cfg.maxPoolSize)
    (hvictim : cfg.maxPoolSize ≤ p.length → ∃ e ∈ p, e.2.lastUsed < now) :
    ((getConnection cfg p key td now).1).length ≤ cfg.maxPoolSize := by
  rcases hget : mapGet p key with - | c
  · simp only [getConnection, hget]
    unfold createAndInsert
    rcases createConnection td now with e | c2
    · exact hle
    · apply insertConnection_length
      by_cases hfull : cfg.maxPoolSize ≤ p.length
      · exact Or.inr ⟨hvictim hfull, hle⟩
      · exact Or.inl (by omega)
  · have hhas := mapGet_some_has p key c hget
    simp only [getConnection, hget]
    by_cases hv : isConnectionValid cfg c now
    · rw [if_pos hv]
      simpa [mapSet_length_of_has p key _ hhas] using hle
    · rw [if_neg hv]
      have hdel := mapDelete_length_of_has p key hhas
      unfold createAndInsert
      rcases createConnection td now with e | c2
      · simp only []
        omega
      · apply insertConnection_length
        left
        omega

/-- A pooled connection last used strictly before the next call's clock
value, for the C3 witness. -/
def c3IdleConn : Connection :=
  { accessToken := "tokA", tokenExpiry := 1000000000, createdAt := 50,
    lastUsed := 50, usageCount := 0, isValid := true }

/-- Claim C3, witness: capacity 1, the single pooled entry was last used
strictly before the call's clock value; the bound is preserved (the entry is
evicted and replaced). -/
theorem c3_pool_bounded_witness :
    ((getConnection c3PoolConfig [("t:w:A", c3IdleConn)] "t:w:B"
        (some ⟨"tokB", 1000000000⟩) 100).1).length ≤ c3PoolConfig.maxPoolSize :=
  c3_pool_bounded c3PoolConfig [("t:w:A", c3IdleConn)] "t:w:B"
    (some ⟨"tokB", 1000000000⟩) 100 (by decide)
    (fun _ => ⟨("t:w:A", c3IdleConn), List.mem_singleton.2 rfl, by decide⟩)

/-- A provider token that expires at the very instant of acquisition, for
the C4 counterexample. -/
def c4StaleToken : TokenData := { accessToken := "tok", expiresAt := 100 }

/-- The connection `createConnection` builds from `c4StaleToken` at clock 100. -/
def c4StaleConn : Connection :=
  { accessToken := "tok", tokenExpiry := 100, createdAt := 100,
    lastUsed := 100, usageCount := 0, isValid := true }

/-- Claim C4, counterexample: `createConnection` adopts the provider token's
expiry without any validity check on the fresh connection, so when the
provider supplies a token expiring within the buffer window (here: at the
call instant itself), `getConnection` returns a connection that already
fails the validity predicate at the instant of return. -/
theorem c4_returned_invalid_counterexample :
    (getConnection defaultPoolConfig [] "k" (some c4StaleToken) 100).2
      = Except.ok c4StaleConn ∧
    isConnectionValid defaultPoolConfig c4StaleConn 100 = false := by
  refine ⟨by rfl, by decide⟩

/-- A fresh connection created from a supplied token satisfies the validity
predicate at creation time when the token's remaining life covers the buffer
and the age bound is non-negative. -/
lemma createAndInsert_ok_valid (cfg : PoolConfig) (p : Pool) (key : String)
    (td : Option TokenData) (now : Int) (p' : Pool) (c : Connection)
    (hage : 0 ≤ cfg.maxConnectionAge)
    (htok : ∀ t, td = some t → cfg.tokenExpiryBuffer ≤ t.expiresAt - now)
    (h : createAndInsert cfg p key td now = (p', Except.ok c)) :
    isConnectionValid cfg c now = true := by
  rcases td with - | t
  · simp only [createAndInsert, createConnection] at h
    rw [Prod.mk.injEq] at h
    exact absurd h.2 (by simp)
  · simp only [createAndInsert, createConnection] at h
    rw [Prod.mk.injEq] at h
    injection h.2 with hc
    subst hc
    have hbuf := htok t rfl
    simp only [isConnectionValid]
    split_ifs with h1 h2 h3
    · exfalso
      omega
    · exfalso
      omega
    · exfalso
      simp at h3
    · rfl

/-- Claim C4, amended: every connection returned by `getConnection` satisfies
the validity predicate at the instant of return, provided (for the
freshly-created case, which the code never re-checks) that the token supplied
by the provider has at least `tokenExpiryBuffer` of remaining life and the
configured age bound is non-negative; reused connections are re-checked by
the code itself. Without the token-freshness proviso the property fails
(see the counterexample). -/
theorem c4_returned_connection_valid (cfg : PoolConfig) (p : Pool) (key : String)
    (td : Option TokenData) (now : Int) (p' : Pool) (c : Connection)
    (hage : 0 ≤ cfg.maxConnectionAge)
    (htok : ∀ t, td = some t → cfg.tokenExpiryBuffer ≤ t.expiresAt - now)
    (h : getConnection cfg p key td now = (p', Except.ok c)) :
    isConnectionValid cfg c now = true := by
  rcases hget : mapGet p key with - | c0
  · simp only [getConnection, hget] at h
    exact createAndInsert_ok_valid cfg p key td now p' c hage htok h
  · simp only [getConnection, hget] at h
    by_cases hv : isConnectionValid cfg c0 now
    · rw [if_pos hv, Prod.mk.injEq] at h
      injection h.2 with hc
      subst hc
      exact hv
    · rw [if_neg hv] at h
      exact createAndInsert_ok_valid cfg (mapDelete p key) key td now p' c hage htok h

/-- The connection `createConnection` builds from a long-lived token at
clock 100, for the C4 witness. -/
def c4FreshConn : Connection :=
  { accessToken := "tok", tokenExpiry := 1000000000, createdAt := 100,
    lastUsed := 100, usageCount := 0, isValid := true }

/-- Claim C4, witness: an empty pool, a provider token with ample remaining
life; the freshly created and returned connection is valid at return time. -/
theorem c4_returned_connection_valid_witness :
    isConnectionValid defaultPoolConfig c4FreshConn 100 = true :=
  c4_returned_connection_valid defaultPoolConfig [] "k"
    (some { accessToken := "tok", expiresAt := 1000000000 }) 100
    [("k", c4FreshConn)] c4FreshConn
    (by decide) (fun t ht => by cases ht; decide) rfl

/-- A failed primary discovery outcome for claim C7. -/
def c7FailedPrimary : ExecOutcome := { success := false, results := none }

/-- A REST discovery channel holding one table (with one column) for C7. -/
def c7RestTables : RestChannel RestTableEntry :=
  .ok (some [{ name := "Sales", description := "",
               columns := some [{ name := "Amount", dataType := "Decimal",
                                  isHidden := false }] }])

/-- Claim C7, counterexample: the claim says all four category extractors
fall back to the secondary REST channel before returning empty. Tables (and
measures) do — `extractTables` on a failed primary returns the REST data —
but `extractColumns` and `extractRelationships` are functions of the primary
outcome alone and return the empty collection immediately on primary failure,
even while an analogous REST channel holds data. -/
theorem c7_no_columns_fallback_counterexample :
    primaryRows c7FailedPrimary = none ∧
    extractColumns c7FailedPrimary = [] ∧
    extractRelationships c7FailedPrimary = [] ∧
    extractTables c7FailedPrimary c7RestTables ≠ [] := by
  refine ⟨rfl, rfl, rfl, by decide⟩

/-- Claim C7, amended: on primary failure (unsuccessful execution or
unexpected result shape), `extractTables` and `extractMeasures` return
exactly the secondary REST channel's extraction, while `extractColumns` and
`extractRelationships` have no secondary channel and return the empty
collection directly. -/
theorem c7_fallback_only_tables_measures :
    (∀ (p : ExecOutcome) (ch : RestChannel RestTableEntry),
        primaryRows p = none → extractTables p ch = extractTablesViaREST ch) ∧
    (∀ (p : ExecOutcome) (ch : RestChannel RestMeasureEntry),
        primaryRows p = none → extractMeasures p ch = extractMeasuresViaREST ch) ∧
    (∀ (p : ExecOutcome), primaryRows p = none → extractColumns p = []) ∧
    (∀ (p : ExecOutcome), primaryRows p = none → extractRelationships p = []) := by
  refine ⟨?_, ?_, ?_, ?_⟩
  · intro p ch h
    simp [extractTables, h]
  · intro p ch h
    simp [extractMeasures, h]
  · intro p h
    simp [extractColumns, h]
  · intro p h
    simp [extractRelationships, h]

/-- Claim C7, witness: the amended statement applied to a concrete failed
primary outcome and a concrete REST channel. -/
theorem c7_fallback_only_tables_measures_witness :
    extractTables c7FailedPrimary c7RestTables = extractTablesViaREST c7RestTables ∧
    extractColumns c7FailedPrimary = [] ∧
    extractRelationships c7FailedPrimary = [] :=
  ⟨c7_fallback_only_tables_measures.1 c7FailedPrimary c7RestTables rfl,
   c7_fallback_only_tables_measures.2.2.1 c7FailedPrimary rfl,
   c7_fallback_only_tables_measures.2.2.2 c7FailedPrimary rfl⟩

end PbiAgent
